import Mathlib

/-!
Shallow embedding of the typed-function dispatch engine
(`src/unnamed/part_000`): runtime values, the JS string operations the
parser relies on, the type registry, the signature parser, the dispatch
table builder, the produced dispatcher, and the registry mutators.
All definitions are translated from the JavaScript source; theorems about
the specification's claims follow the definitions.
-/

namespace TypedFunction

/-- Model of the JavaScript runtime values the library distinguishes.
Function values are carried as an opaque tag (their semantics is supplied
separately where the library actually calls them). -/
inductive JSValue where
  | undefined : JSValue
  | null : JSValue
  | bool : Bool → JSValue
  | num : Int → JSValue
  | str : String → JSValue
  | func : Nat → JSValue
  | arr : List JSValue → JSValue
  | date : Nat → JSValue
  | regexp : String → JSValue
  | obj : Nat → JSValue

/-- JavaScript `typeof` operator on the modelled values.
`typeof null` is `"object"`, as in JavaScript. -/
def typeOf : JSValue → String
  | .undefined => "undefined"
  | .null => "object"
  | .bool _ => "boolean"
  | .num _ => "number"
  | .str _ => "string"
  | .func _ => "function"
  | .arr _ => "object"
  | .date _ => "object"
  | .regexp _ => "object"
  | .obj _ => "object"

/-- JS `Array.isArray`. -/
def isArray : JSValue → Bool
  | .arr _ => true
  | _ => false

/-- JS `x instanceof Date`. -/
def instanceOfDate : JSValue → Bool
  | .date _ => true
  | _ => false

/-- JS `x instanceof RegExp`. -/
def instanceOfRegExp : JSValue → Bool
  | .regexp _ => true
  | _ => false

/-- JavaScript indexing `args[i]`: out-of-range access yields `undefined`. -/
def argAt (args : List JSValue) (i : Nat) : JSValue :=
  args.getD i .undefined

/-! JavaScript string operations used by the parser, modelled over the
character list of a `String`. -/

/-- Split a character list on a separator character, JS `split` style:
the empty string splits to `[""]`. -/
def jsSplitAux (sep : Char) : List Char → List Char → List String
  | [], cur => [String.mk cur.reverse]
  | c :: rest, cur =>
      if c == sep then String.mk cur.reverse :: jsSplitAux sep rest []
      else jsSplitAux sep rest (c :: cur)

/-- JS `s.split(sep)` for a one-character separator. -/
def jsSplit (sep : Char) (s : String) : List String :=
  jsSplitAux sep s.data []

/-- Whitespace for JS `trim` (the inputs here are ASCII signature texts). -/
def isWsChar (c : Char) : Bool :=
  c == ' ' || c == '\t' || c == '\n' || c == '\r'

/-- JS `s.trim()`. -/
def jsTrim (s : String) : String :=
  String.mk (((s.data.dropWhile isWsChar).reverse.dropWhile isWsChar).reverse)

/-- Does `pat` occur at the head of `cs`? -/
def headMatches : List Char → List Char → Bool
  | [], _ => true
  | _ :: _, [] => false
  | p :: ps, c :: cs => p == c && headMatches ps cs

/-- First index where `pat` occurs in `cs`, scanning left to right. -/
def findSubAux (pat : List Char) : List Char → Nat → Option Nat
  | [], i => if headMatches pat [] then some i else none
  | c :: rest, i =>
      if headMatches pat (c :: rest) then some i
      else findSubAux pat rest (i + 1)

/-- JS `s.indexOf(pat)`: `some i` for the first occurrence, `none` for the
JavaScript result `-1`. -/
def jsIndexOf (s pat : String) : Option Nat :=
  findSubAux pat.data s.data 0

/-- JS `s.lastIndexOf(c)` for a single character, `none` standing for `-1`. -/
def jsLastIndexOfAux (c : Char) : List Char → Nat → Option Nat → Option Nat
  | [], _, acc => acc
  | x :: rest, i, acc =>
      jsLastIndexOfAux c rest (i + 1) (if x == c then some i else acc)

/-- JS `s.lastIndexOf(c)`. -/
def jsLastIndexOf (c : Char) (s : String) : Option Nat :=
  jsLastIndexOfAux c s.data 0 none

/-- JS `s.replace(/ /g, '')`: remove every space. -/
def stripSpaces (s : String) : String :=
  String.mk (s.data.filter (fun c => c != ' '))

/-- JS `s.replace(/^.../, '')`: the regexp matches the first three
characters of the string, so they are removed when the string has at
least three characters. -/
def dropFirst3 (s : String) : String :=
  if s.data.length ≥ 3 then String.mk (s.data.drop 3) else s

/-- JS `s.toLowerCase()` on the ASCII names used here. -/
def jsToLower (s : String) : String :=
  String.mk (s.data.map Char.toLower)

/-- Substring containment, via `jsIndexOf`. -/
def hasSubstr (s pat : String) : Bool :=
  (jsIndexOf s pat).isSome

/-! The library's error values. JavaScript raises `TypeError`,
`SyntaxError` and plain `Error` objects; each carries a message. -/

/-- Errors raised by the library. -/
inductive JSError where
  | typeError : String → JSError
  | syntaxError : String → JSError
  | error : String → JSError

/-- An entry of the type registry: a name and a test predicate. -/
structure TypeEntry where
  name : String
  test : JSValue → Bool

/-- The always-true test, source function `ok`. -/
def ok (_ : JSValue) : Bool := true

/-- The built-in type list `_types` seeded by `create()`. -/
def builtinTypes : List TypeEntry :=
  [ ⟨"number", fun x => typeOf x == "number"⟩,
    ⟨"string", fun x => typeOf x == "string"⟩,
    ⟨"boolean", fun x => typeOf x == "boolean"⟩,
    ⟨"Function", fun x => typeOf x == "function"⟩,
    ⟨"Array", isArray⟩,
    ⟨"Date", instanceOfDate⟩,
    ⟨"RegExp", instanceOfRegExp⟩,
    ⟨"Object", fun x => typeOf x == "object"⟩,
    ⟨"null", fun x => match x with | .null => true | _ => false⟩,
    ⟨"undefined", fun x => match x with | .undefined => true | _ => false⟩,
    ⟨"any", ok⟩ ]

/-- Message of the `Unknown type` error thrown by `findTest`, including
the case-insensitive `Did you mean` hint when one exists. -/
def unknownTypeMsg (types : List TypeEntry) (type : String) : String :=
  let hint := types.find? (fun entry => jsToLower entry.name == jsToLower type)
  "Unknown type \"" ++ type ++ "\"" ++
    (match hint with
     | some h => ". Did you mean \"" ++ h.name ++ "\"?"
     | none => "")

/-- Source `findTest`: look a type name up in the registry, first exact
match wins; an absent name raises a `TypeError` whose message carries a
case-insensitive suggestion when available. -/
def findTest (types : List TypeEntry) (type : String) :
    Except JSError (JSValue → Bool) :=
  match types.find? (fun entry => entry.name == type) with
  | some entry => .ok entry.test
  | none => .error (.typeError (unknownTypeMsg types type))

/-- Source `notEmpty`: `!!str`, false exactly on the empty string. -/
def notEmpty (s : String) : Bool := !s.isEmpty

/-- Source `notIgnore`: the type name is not in the ignore list. -/
def notIgnore (ignore : List String) (type : String) : Bool :=
  !(ignore.contains type)

/-- Source `parseParam`: compile one parameter text (a `|`-union of type
names) into a predicate over a single value. -/
def parseParam (types : List TypeEntry) (ignore : List String)
    (param : String) : Except JSError (JSValue → Bool) :=
  let ts := (((jsSplit '|' param).map jsTrim).filter notEmpty).filter
      (notIgnore ignore)
  match ts with
  | [] => .ok ok
  | [t0] => findTest types t0
  | [t0, t1] => do
      let test0 ← findTest types t0
      let test1 ← findTest types t1
      .ok (fun x => test0 x || test1 x)
  | _ => do
      let tests ← ts.mapM (findTest types)
      .ok (fun x => tests.any (fun t => t x))

/-- The source's `for` loop over the fixed-parameter tests: test number
`i` is applied to `args[i]`, with out-of-range reads yielding
`undefined`. -/
def testsMatch : List (JSValue → Bool) → List JSValue → Bool
  | [], _ => true
  | t :: ts, [] => t .undefined && testsMatch ts []
  | t :: ts, a :: as_ => t a && testsMatch ts as_

/-- The variadic branch of source `parseParams`: compile all but the
last parameter normally, strip the marker from the last one (the regexp
`^...` removes the first three characters), test every trailing argument
with it, and require at least one trailing argument. -/
def parseParamsVar (types : List TypeEntry) (ignore : List String)
    (params : List String) : Except JSError (List JSValue → Bool) := do
  let tests ← params.dropLast.mapM (parseParam types ignore)
  let varIndex := tests.length
  let lastTest ← parseParam types ignore (dropFirst3 (params.getLastD ""))
  .ok (fun args =>
    testsMatch tests args &&
      ((args.drop varIndex).all lastTest &&
        decide (args.length ≥ varIndex + 1)))

/-- The non-variadic branch of source `parseParams`: the specialised
0/1/2/3+ parameter-count cases, each of which also requires the actual
argument count to equal the declared parameter count. -/
def parseParamsFixed (types : List TypeEntry) (ignore : List String) :
    List String → Except JSError (List JSValue → Bool)
  | [] => .ok (fun args => args.length == 0)
  | [p0] => do
      let test0 ← parseParam types ignore p0
      .ok (fun args => test0 (argAt args 0) && args.length == 1)
  | [p0, p1] => do
      let test0 ← parseParam types ignore p0
      let test1 ← parseParam types ignore p1
      .ok (fun args =>
        test0 (argAt args 0) && test1 (argAt args 1) && args.length == 2)
  | p0 :: p1 :: p2 :: rest => do
      let tests ← (p0 :: p1 :: p2 :: rest).mapM (parseParam types ignore)
      .ok (fun args => testsMatch tests args && args.length == tests.length)

/-- Source `parseParams`: compile a whole signature text into a predicate
over the argument list. The variadic marker is detected by `indexOf`,
and it must not be followed by a comma. -/
def parseParams (types : List TypeEntry) (ignore : List String)
    (signature : String) : Except JSError (List JSValue → Bool) :=
  let params := (jsSplit ',' signature).map jsTrim
  match jsIndexOf signature "..." with
  | some varArgsIndex =>
      if (match jsLastIndexOf ',' signature with
          | some j => decide (varArgsIndex < j)
          | none => false) then
        .error (.syntaxError
          "Variable argument operator \"...\" only allowed for the last parameter")
      else parseParamsVar types ignore params
  | none => parseParamsFixed types ignore params

/-- Source `createError`: the no-match diagnostic. For each actual
argument the first registered type whose predicate accepts it is named
(`"unknown"` when none does); the names are joined in argument order and
the dispatcher's name (or `unnamed`) is appended. -/
def createError (types : List TypeEntry) (name : String)
    (args : List JSValue) : JSError :=
  let typesList := args.map (fun arg =>
    match types.find? (fun entry => entry.test arg) with
    | some entry => entry.name
    | none => "unknown")
  .error ("Signature \"" ++ String.intercalate ", " typesList ++
    "\" doesn\x27t match any of the defined signatures of function " ++
    (if name == "" then "unnamed" else name) ++ ".")

/-- Source `createVarArgPreProcess`: collect the trailing arguments into
one trailing array argument. -/
def createVarArgPreProcess (signature : String) :
    List JSValue → List JSValue :=
  let offset := (jsSplit ',' signature).length - 1
  fun args => args.take offset ++ [JSValue.arr (args.drop offset)]

/-- One compiled signature definition, an element of the source's `defs`
array. -/
structure SigDef where
  signature : String
  varArg : Bool
  preprocess : Option (List JSValue → List JSValue)
  test : List JSValue → Bool
  fn : List JSValue → JSValue

/-- The produced typed function: its `name`, the ordered `defs` list the
dispatch loop scans, and the `signatures` metadata object. -/
structure Dispatcher where
  name : String
  defs : List SigDef
  signatures : List (String × (List JSValue → JSValue))

/-- JavaScript object property assignment for the `signatures` metadata:
overwrite an existing key, else append. -/
def assignProp (m : List (String × (List JSValue → JSValue)))
    (k : String) (v : List JSValue → JSValue) :
    List (String × (List JSValue → JSValue)) :=
  if m.any (fun p => p.1 == k) then
    m.map (fun p => if p.1 == k then (k, v) else p)
  else m ++ [(k, v)]

/-- Source `createTypedFunction`: compile every signature of the ordered
signature map into a `SigDef` (propagating any compilation error) and
package the dispatcher. -/
def createTypedFunction (types : List TypeEntry) (ignore : List String)
    (name : String) (sigs : List (String × (List JSValue → JSValue))) :
    Except JSError Dispatcher := do
  let defs ← sigs.mapM (fun p => do
    let varArg := (jsIndexOf p.1 "...").isSome
    let test ← parseParams types ignore p.1
    pure ({ signature := stripSpaces p.1
            varArg := varArg
            preprocess :=
              if varArg then some (createVarArgPreProcess p.1) else none
            test := test
            fn := p.2 } : SigDef))
  pure { name := name
         defs := defs
         signatures := defs.foldl (fun m d => assignProp m d.signature d.fn) [] }

/-- The dispatch loop of the produced callable: scan `defs` in order,
invoke the first matching definition (variadic definitions are applied
through their preprocess step), and raise the `createError` diagnostic
when nothing matches. `types` is the live type registry consulted only
by the diagnostic. -/
def callTyped (types : List TypeEntry) (d : Dispatcher)
    (args : List JSValue) : Except JSError JSValue :=
  match d.defs.find? (fun df => df.test args) with
  | some df =>
      .ok (if df.varArg then df.fn ((df.preprocess.getD id) args)
           else df.fn args)
  | none => .error (createError types d.name args)

/-! The instance state produced by `create()` and the registry
mutators. The `conversions` property is modelled as an `Option`: `none`
stands for the property never having been assigned on the instance
(which is what `create()` leaves behind). -/

/-- A conversion entry as passed to `addConversion`; the fields are
arbitrary JS values so malformed entries are representable. The
`convert` function is stored but never invoked by the engine. -/
structure ConvArg where
  from_ : JSValue
  to_ : JSValue
  convert : JSValue

/-- One instance of the system: type registry, ignore list, and the
`conversions` property (`none` = never assigned). -/
structure TypedState where
  types : List TypeEntry
  ignore : List String
  conversions : Option (List ConvArg)

/-- Source `create()`: a fresh instance with the built-in types, an empty
ignore list, and no `conversions` property. -/
def create : TypedState :=
  { types := builtinTypes, ignore := [], conversions := none }

/-- The argument passed to `addType`: its `name` is an arbitrary JS
value; its `test` is `some` predicate exactly when the supplied value is
a function. `none` at the outer level models a falsy argument. -/
structure AddTypeArg where
  name : JSValue
  test : Option (JSValue → Bool)

/-- String payload of a JS value known to be a string. -/
def asString : JSValue → String
  | .str s => s
  | _ => ""

/-- Shape-failure message of `addType`. -/
def addTypeInvalidMsg : String :=
  "Object with properties \x7bname: string, test: function\x7d expected"

/-- Source `typed.addType`: validate the `{name, test}` shape, then push
the entry onto the instance's type list. -/
def addType (st : TypedState) : Option AddTypeArg →
    Except JSError TypedState
  | none => .error (.typeError addTypeInvalidMsg)
  | some a =>
      if typeOf a.name != "string" then .error (.typeError addTypeInvalidMsg)
      else match a.test with
        | none => .error (.typeError addTypeInvalidMsg)
        | some f =>
            .ok { st with types := st.types ++ [⟨asString a.name, f⟩] }

/-- Shape-failure message of `addConversion`. -/
def addConversionInvalidMsg : String :=
  "Object with properties \x7bfrom: string, to: string, convert: function\x7d expected"

/-- Message of the `TypeError` raised when `typed.conversions.push` is
evaluated while the `conversions` property is undefined. -/
def undefinedPushMsg : String :=
  "Cannot read properties of undefined (reading \x27push\x27)"

/-- Source `typed.addConversion`: validate the `{from, to, convert}`
shape, then evaluate `typed.conversions.push(conversion)` — which, when
the `conversions` property was never assigned, is a property access on
`undefined` and raises a `TypeError`. -/
def addConversion (st : TypedState) : Option ConvArg →
    Except JSError TypedState
  | none => .error (.typeError addConversionInvalidMsg)
  | some c =>
      if typeOf c.from_ != "string" || typeOf c.to_ != "string" ||
          typeOf c.convert != "function" then
        .error (.typeError addConversionInvalidMsg)
      else match st.conversions with
        | none => .error (.typeError undefinedPushMsg)
        | some cs => .ok { st with conversions := some (cs ++ [c]) }

/-- Extract the compiled test from a compilation result (total helper for
stating concrete facts; the default is never reached on the inputs it is
used with). -/
def getTest (e : Except JSError (List JSValue → Bool)) :
    List JSValue → Bool :=
  e.toOption.getD (fun _ => false)

/-- Extract the dispatcher from a construction result (total helper). -/
def getDisp (e : Except JSError Dispatcher) : Dispatcher :=
  e.toOption.getD ⟨"", [], []⟩

/-- The dispatcher of the first-match example: signatures `"any"` and
`"number"` registered in that order, with implementations returning
`"first"` and `"second"`. -/
def anyNumDisp : Dispatcher :=
  getDisp (createTypedFunction builtinTypes [] "f"
    [("any", fun _ => .str "first"), ("number", fun _ => .str "second")])

/-- The dispatcher of the no-match example: signatures `"string"` and
`"number"` only. -/
def strNumDisp : Dispatcher :=
  getDisp (createTypedFunction builtinTypes [] "fn1"
    [("string", fun _ => .num 1), ("number", fun _ => .num 2)])

/-! Helper lemmas shared by the claim theorems. -/

/-- Bind of a successful `Except` computation. -/
theorem exbind_ok {ε α β : Type} (a : α) (f : α → Except ε β) :
    (Except.ok a >>= f) = f a := rfl

/-- Bind of a failed `Except` computation. -/
theorem exbind_err {ε α β : Type} (e : ε) (f : α → Except ε β) :
    ((Except.error e : Except ε α) >>= f) = .error e := rfl

/-- A successful `mapM` over `Except` preserves the list length. -/
theorem mapM_ok_length {ε α β : Type} (f : α → Except ε β) :
    ∀ (l : List α) (res : List β), l.mapM f = .ok res → res.length = l.length
  | [], res, h => by
      simp only [List.mapM_nil, pure] at h
      cases h
      rfl
  | a :: l, res, h => by
      simp only [List.mapM_cons] at h
      cases hf : f a with
      | error e => rw [hf, exbind_err] at h; cases h
      | ok b =>
          rw [hf, exbind_ok] at h
          cases hl : l.mapM f with
          | error e => rw [hl, exbind_err] at h; cases h
          | ok bs =>
              rw [hl, exbind_ok] at h
              cases h
              simp [mapM_ok_length f l bs hl]

/-- Appending entries after a successful lookup does not change it. -/
theorem find?_append_of_some {α : Type} (p : α → Bool) (l₁ l₂ : List α)
    (y : α) (h : l₁.find? p = some y) : (l₁ ++ l₂).find? p = some y := by
  rw [List.find?_append, h]; rfl

/-- A pattern matches the head of any list it starts. -/
theorem headMatches_append_self (pat rest : List Char) :
    headMatches pat (pat ++ rest) = true := by
  induction pat with
  | nil => rfl
  | cons c cs ih => simp [headMatches, ih]

/-- Scanning finds an occurrence whenever the pattern starts some
suffix of the scanned list. -/
theorem findSubAux_isSome_of_split (pat l₁ l₂ : List Char)
    (h : headMatches pat l₂ = true) :
    ∀ i, (findSubAux pat (l₁ ++ l₂) i).isSome = true := by
  induction l₁ with
  | nil =>
      intro i
      cases l₂ with
      | nil =>
          cases pat with
          | nil => simp [findSubAux, h]
          | cons p ps => simp [headMatches] at h
      | cons c cs => simp [findSubAux, h]
  | cons c cs ih =>
      intro i
      show (findSubAux pat (c :: (cs ++ l₂)) i).isSome = true
      rw [findSubAux]
      cases hm : headMatches pat (c :: (cs ++ l₂)) with
      | true => simp
      | false => simpa using ih (i + 1)

/-- A string contains any suffix of itself as a substring. -/
theorem hasSubstr_append_right (a b : String) :
    hasSubstr (a ++ b) b = true := by
  have hdata : (a ++ b).data = a.data ++ b.data := by
    cases a; cases b; rfl
  unfold hasSubstr jsIndexOf
  rw [hdata]
  exact findSubAux_isSome_of_split b.data a.data b.data
    (by simpa using headMatches_append_self b.data []) 0

/-- String append is associative. -/
theorem str_append_assoc (a b c : String) : (a ++ b) ++ c = a ++ (b ++ c) := by
  cases a with
  | mk l1 =>
      cases b with
      | mk l2 =>
          cases c with
          | mk l3 =>
              show String.mk ((l1 ++ l2) ++ l3) = String.mk (l1 ++ (l2 ++ l3))
              rw [List.append_assoc]

/-- A test produced by the non-variadic branch rejects every argument
list whose length differs from the declared parameter count. -/
theorem parseParamsFixed_arity (types : List TypeEntry)
    (ignore : List String) (params : List String) (t : List JSValue → Bool)
    (args : List JSValue)
    (ht : parseParamsFixed types ignore params = .ok t)
    (hlen : args.length ≠ params.length) : t args = false := by
  match params with
  | [] =>
      simp only [parseParamsFixed] at ht
      injection ht with ht
      subst ht
      simpa using hlen
  | [p0] =>
      simp only [parseParamsFixed] at ht
      cases h0 : parseParam types ignore p0 with
      | error e => rw [h0, exbind_err] at ht; cases ht
      | ok test0 =>
          rw [h0, exbind_ok] at ht
          injection ht with ht
          subst ht
          have : (args.length == 1) = false := by simpa using hlen
          simp [this]
  | [p0, p1] =>
      simp only [parseParamsFixed] at ht
      cases h0 : parseParam types ignore p0 with
      | error e => rw [h0, exbind_err] at ht; cases ht
      | ok test0 =>
          rw [h0, exbind_ok] at ht
          cases h1 : parseParam types ignore p1 with
          | error e => rw [h1, exbind_err] at ht; cases ht
          | ok test1 =>
              rw [h1, exbind_ok] at ht
              injection ht with ht
              subst ht
              have : (args.length == 2) = false := by simpa using hlen
              simp [this]
  | p0 :: p1 :: p2 :: rest =>
      simp only [parseParamsFixed] at ht
      cases hm : (p0 :: p1 :: p2 :: rest).mapM (parseParam types ignore) with
      | error e => rw [hm, exbind_err] at ht; cases ht
      | ok tests =>
          rw [hm, exbind_ok] at ht
          injection ht with ht
          subst ht
          have hl : tests.length = (p0 :: p1 :: p2 :: rest).length :=
            mapM_ok_length _ _ _ hm
          have : (args.length == tests.length) = false := by
            rw [hl]; simpa using hlen
          simp [this]

/-- A successful `addType` appends exactly one entry to the type list
and changes nothing else. -/
theorem addType_ok_types (st st₁ : TypedState) (a : Option AddTypeArg)
    (h : addType st a = .ok st₁) :
    ∃ e, st₁.types = st.types ++ [e] ∧ st₁.ignore = st.ignore ∧
      st₁.conversions = st.conversions := by
  match a with
  | none => cases h
  | some a =>
      simp only [addType] at h
      split at h
      · cases h
      · split at h
        · cases h
        · injection h with h
          subst h
          exact ⟨_, rfl, rfl, rfl⟩

/-- A successful `addConversion` leaves the type list unchanged. -/
theorem addConversion_ok_types (st st₂ : TypedState) (c : Option ConvArg)
    (h : addConversion st c = .ok st₂) : st₂.types = st.types := by
  match c with
  | none => cases h
  | some c =>
      simp only [addConversion] at h
      split at h
      · cases h
      · split at h
        · cases h
        · injection h with h
          subst h
          rfl

/-- When some registered type accepts every value, appending further
entries to the registry does not change any dispatch outcome: matching
ignores the registry entirely, and the no-match diagnostic names, for
each argument, a type found before the appended entries. -/
theorem callTyped_types_append (types ext : List TypeEntry)
    (d : Dispatcher) (args : List JSValue)
    (hall : ∃ e ∈ types, ∀ v, e.test v = true) :
    callTyped (types ++ ext) d args = callTyped types d args := by
  unfold callTyped
  cases hfind : d.defs.find? (fun df => df.test args) with
  | some df => rfl
  | none =>
      have hmap : args.map (fun arg =>
          match (types ++ ext).find? (fun entry => entry.test arg) with
          | some entry => entry.name
          | none => "unknown") =
        args.map (fun arg =>
          match types.find? (fun entry => entry.test arg) with
          | some entry => entry.name
          | none => "unknown") := by
        apply List.map_congr_left
        intro arg _
        obtain ⟨e, he, hacc⟩ := hall
        have hsome : (types.find? (fun entry => entry.test arg)).isSome :=
          List.find?_isSome.mpr ⟨e, he, by simp [hacc arg]⟩
        obtain ⟨y, hy⟩ := Option.isSome_iff_exists.mp hsome
        rw [find?_append_of_some _ _ _ _ hy, hy]
      simp only [createError, hmap]

/-! Claim theorems. -/

/-- C1, counterexample: compiling the signature text `"string, number..."`,
with the `...` marker written after the type name as the claim prescribes,
does not succeed: the marker-stripping step removes the first three
characters of the last parameter (the regexp anchors at the start of the
string), leaving `"ber..."`, so compilation fails with an unknown-type
error instead of producing a dispatcher test. -/
theorem c1_suffix_variadic_fails :
    parseParams builtinTypes [] "string, number..." =
      .error (.typeError "Unknown type \"ber...\"") := rfl

/-- C1, amended: the variadic marker the code accepts is written before
the type name of the last parameter. Compiling `"string, ...number"`
succeeds, and the resulting signature test accepts `["a", 1]` and
`["a", 1, 2, 3]`, rejects `["a"]` (zero trailing arguments), and rejects
`[1, 2]` (first fixed parameter type mismatch). -/
theorem c1_marker_first_variadic_acceptance :
    (parseParams builtinTypes [] "string, ...number").map (fun t =>
      (t [.str "a", .num 1], t [.str "a", .num 1, .num 2, .num 3],
       t [.str "a"], t [.num 1, .num 2])) =
    .ok (true, true, false, false) := rfl

/-- C2, code bug: on a fresh instance, `addConversion` applied to an
entry of the required `{from: string, to: string, convert: function}`
shape does not append it to a conversion registry — `create()` never
initialises the `conversions` property, so the push is a property access
on `undefined` and the call fails with a `TypeError` (whose message is
not the `InvalidArgument` shape message); a malformed entry does fail
with the `InvalidArgument` shape message. -/
theorem c2_addConversion_crashes_on_valid_entry :
    addConversion create (some ⟨.str "boolean", .str "number", .func 0⟩) =
      .error (.typeError undefinedPushMsg) ∧
    undefinedPushMsg ≠ addConversionInvalidMsg ∧
    addConversion create (some ⟨.num 1, .str "number", .func 0⟩) =
      .error (.typeError addConversionInvalidMsg) ∧
    addConversion create none =
      .error (.typeError addConversionInvalidMsg) := by
  refine ⟨rfl, ?_, rfl, rfl⟩
  intro h
  exact absurd (congrArg String.length h) (by decide)

/-- C3, code bug: the dispatcher test built from the empty signature
text `""` is not a zero-argument test. Splitting `""` on `','` yields
`[""]`, one (empty, always-true) parameter, so the compiled test rejects
the empty argument list and accepts every one-element argument list; the
zero-parameter branch of the source is unreachable. -/
theorem c3_empty_signature_is_unary :
    (parseParams builtinTypes [] "").map (fun t =>
      (t [], t [.num 1], t [.str "x"], t [.num 1, .num 2])) =
    .ok (false, true, true, false) := rfl

/-- C10: the built-in `Object` type predicate (`typeof x === 'object'`)
of a fresh instance returns true for `null`, arrays, Dates and RegExps,
and a dispatcher test built from the single signature `"Object"` accepts
the one-element argument list `[null]`. -/
theorem c10_object_accepts_null :
    (builtinTypes.find? (fun e => e.name == "Object")).map (fun e =>
      (e.test .null, e.test (.arr []), e.test (.date 0),
       e.test (.regexp ""))) = some (true, true, true, true) ∧
    (parseParams create.types create.ignore "Object").map
      (fun t => t [JSValue.null]) = .ok true := ⟨rfl, rfl⟩

/-- C4: dispatch is first-registered-wins. Whenever the dispatcher's
definition list splits as `pre ++ df :: post` with every definition in
`pre` rejecting the arguments and `df` accepting them, the call invokes
`df`'s implementation — whatever the later definitions in `post` are,
they are never consulted. -/
theorem c4_first_match_wins (types : List TypeEntry) (d : Dispatcher)
    (args : List JSValue) (pre post : List SigDef) (df : SigDef)
    (hd : d.defs = pre ++ df :: post)
    (hpre : ∀ x ∈ pre, x.test args = false)
    (hdf : df.test args = true) :
    callTyped types d args =
      .ok (if df.varArg then df.fn ((df.preprocess.getD id) args)
           else df.fn args) := by
  unfold callTyped
  rw [hd]
  have h1 : pre.find? (fun x => x.test args) = none :=
    List.find?_eq_none.mpr (by intro x hx; simp [hpre x hx])
  have h2 : List.find? (fun x => x.test args) (df :: post) = some df :=
    List.find?_cons_of_pos post hdf
  rw [List.find?_append, h1, h2]
  rfl

/-- C4 witness: for the dispatcher built from `"any"` and `"number"`
registered in that order, a call with the numeric argument `3` invokes
the `"any"` implementation (returning `"first"`), never the `"number"`
one (which would return `"second"`). -/
theorem c4_first_match_wins_witness :
    callTyped builtinTypes anyNumDisp [JSValue.num 3] =
      .ok (.str "first") ∧
    callTyped builtinTypes anyNumDisp [JSValue.num 3] ≠
      .ok (.str "second") := by
  have h : callTyped builtinTypes anyNumDisp [JSValue.num 3] =
      .ok (.str "first") :=
    c4_first_match_wins builtinTypes anyNumDisp [JSValue.num 3]
      [] _ _ rfl (by simp) rfl
  exact ⟨h, by rw [h]; simp⟩

/-- C5: when no signature definition's test accepts the actual
arguments, the call fails with an error whose message lists, for every
actual argument in argument order, the name of the first registered type
whose predicate accepts that value (`"unknown"` when none does),
together with the dispatcher's name (`unnamed` when the name is
empty). -/
theorem c5_no_match_diagnostic (types : List TypeEntry) (d : Dispatcher)
    (args : List JSValue)
    (hno : ∀ df ∈ d.defs, df.test args = false) :
    callTyped types d args = .error (.error
      ("Signature \"" ++
        String.intercalate ", " (args.map (fun arg =>
          match types.find? (fun entry => entry.test arg) with
          | some entry => entry.name
          | none => "unknown")) ++
        "\" doesn\x27t match any of the defined signatures of function " ++
        (if d.name == "" then "unnamed" else d.name) ++ ".")) := by
  unfold callTyped
  have h : d.defs.find? (fun df => df.test args) = none :=
    List.find?_eq_none.mpr (by intro x hx; simp [hno x hx])
  rw [h]
  rfl

/-- C5 witness: the dispatcher built only from `"string"` and
`"number"`, invoked with a boolean argument, fails with a message that
reports the actual type `"boolean"`. -/
theorem c5_no_match_diagnostic_witness :
    callTyped builtinTypes strNumDisp [JSValue.bool true] =
      .error (.error "Signature \"boolean\" doesn\x27t match any of the defined signatures of function fn1.") ∧
    hasSubstr "Signature \"boolean\" doesn\x27t match any of the defined signatures of function fn1." "boolean" = true := by
  refine ⟨?_, rfl⟩
  have hno : ∀ df ∈ strNumDisp.defs, df.test [JSValue.bool true] = false := by
    have hall : strNumDisp.defs.all
        (fun df => df.test [JSValue.bool true] == false) = true := rfl
    intro df hdf
    simpa using List.all_eq_true.mp hall df hdf
  exact c5_no_match_diagnostic builtinTypes strNumDisp [JSValue.bool true] hno

/-- C6: a non-variadic signature (no `...` in its text) with `N`
declared parameters compiles to a test that rejects every argument list
whose length differs from `N`, whatever the individual arguments are. -/
theorem c6_exact_arity (types : List TypeEntry) (ignore : List String)
    (sig : String) (args : List JSValue) (t : List JSValue → Bool)
    (hvar : jsIndexOf sig "..." = none)
    (ht : parseParams types ignore sig = .ok t)
    (hlen : args.length ≠ (jsSplit ',' sig).length) :
    t args = false := by
  simp only [parseParams, hvar] at ht
  exact parseParamsFixed_arity types ignore ((jsSplit ',' sig).map jsTrim)
    t args ht (by simpa using hlen)

/-- C6 witness: the two-parameter signature `"number, string"` compiles,
and its test rejects the one-element list `[1]` (whose only element does
satisfy its parameter predicate) and the three-element list
`[1, "a", "b"]`. -/
theorem c6_exact_arity_witness :
    (jsIndexOf "number, string" "..." = none) ∧
    getTest (parseParams builtinTypes [] "number, string")
      [JSValue.num 1] = false ∧
    getTest (parseParams builtinTypes [] "number, string")
      [JSValue.num 1, JSValue.str "a", JSValue.str "b"] = false ∧
    getTest (parseParams builtinTypes [] "number, string")
      [JSValue.num 1, JSValue.str "a"] = true := by
  refine ⟨rfl, ?_, ?_, rfl⟩
  · exact c6_exact_arity builtinTypes [] "number, string" [JSValue.num 1]
      (getTest (parseParams builtinTypes [] "number, string")) rfl rfl
      (by decide)
  · exact c6_exact_arity builtinTypes [] "number, string"
      [JSValue.num 1, JSValue.str "a", JSValue.str "b"]
      (getTest (parseParams builtinTypes [] "number, string")) rfl rfl
      (by decide)

/-- C7: a type name absent from the registry fails at
signature-compilation time with the `Unknown type` error — the lookup
itself, the parameter compiler, the signature compiler and the
dispatcher builder all fail with it, so no dispatcher is produced and
nothing is deferred to call time — and the message carries a
`Did you mean` suggestion naming a registered type whenever some
registered name equals the looked-up name ignoring case. -/
theorem c7_unknown_type_fails_compilation (types : List TypeEntry)
    (ignore : List String) (nm t : String) (f : List JSValue → JSValue)
    (habs : types.find? (fun e => e.name == t) = none)
    (hsplitC : jsSplit ',' t = [t])
    (hsplitP : jsSplit '|' t = [t])
    (htrim : jsTrim t = t)
    (hne : notEmpty t = true)
    (hig : notIgnore ignore t = true)
    (hvar : jsIndexOf t "..." = none) :
    findTest types t = .error (.typeError (unknownTypeMsg types t)) ∧
    parseParam types ignore t =
      .error (.typeError (unknownTypeMsg types t)) ∧
    parseParams types ignore t =
      .error (.typeError (unknownTypeMsg types t)) ∧
    createTypedFunction types ignore nm [(t, f)] =
      .error (.typeError (unknownTypeMsg types t)) ∧
    (∀ e, types.find? (fun en => jsToLower en.name == jsToLower t) = some e →
      e ∈ types ∧
      hasSubstr (unknownTypeMsg types t)
        ("Did you mean \"" ++ e.name ++ "\"?") = true) := by
  have hft : findTest types t =
      .error (.typeError (unknownTypeMsg types t)) := by
    unfold findTest
    rw [habs]
  have hpp : parseParam types ignore t =
      .error (.typeError (unknownTypeMsg types t)) := by
    unfold parseParam
    rw [hsplitP]
    simp only [List.map, htrim, List.filter, hne, hig]
    exact hft
  have hpps : parseParams types ignore t =
      .error (.typeError (unknownTypeMsg types t)) := by
    simp only [parseParams, hvar, hsplitC, List.map, htrim, parseParamsFixed]
    rw [hpp, exbind_err]
  refine ⟨hft, hpp, hpps, ?_, ?_⟩
  · unfold createTypedFunction
    simp only [List.mapM_cons, hpps]
    rfl
  · intro e he
    refine ⟨List.mem_of_find?_eq_some he, ?_⟩
    have hmsg : unknownTypeMsg types t =
        ("Unknown type \"" ++ t ++ "\". ") ++
          ("Did you mean \"" ++ e.name ++ "\"?") := by
      unfold unknownTypeMsg
      rw [he]
      simp only [str_append_assoc]
      rfl
    rw [hmsg]
    exact hasSubstr_append_right _ _

/-- C7 witness: `"NUMBER"` is not registered but `"number"` is, so the
lookup and the whole compilation pipeline fail with the suggesting
message. -/
theorem c7_unknown_type_fails_compilation_witness :
    (builtinTypes.find? (fun e => e.name == "NUMBER") = none) ∧
    findTest builtinTypes "NUMBER" =
      .error (.typeError "Unknown type \"NUMBER\". Did you mean \"number\"?") ∧
    createTypedFunction builtinTypes [] "g" [("NUMBER", fun _ => .null)] =
      .error (.typeError "Unknown type \"NUMBER\". Did you mean \"number\"?") ∧
    hasSubstr "Unknown type \"NUMBER\". Did you mean \"number\"?"
      ("Did you mean \"number\"?") = true := by
  have h := c7_unknown_type_fails_compilation builtinTypes [] "g" "NUMBER"
    (fun _ => .null) rfl rfl rfl rfl rfl rfl rfl
  exact ⟨rfl, h.1, h.2.2.2.1, (h.2.2.2.2 ⟨"number", fun x => typeOf x == "number"⟩ rfl).2⟩

/-- C8: instances are independent. `addType` on a fresh instance yields
a state whose registry is the built-in list extended with exactly the
new entry — in which the new name resolves to the new test — while a
fresh instance's registry is still exactly the built-in list, in which
the new name does not resolve. -/
theorem c8_instance_independence (n : String) (f : JSValue → Bool)
    (hfresh : builtinTypes.find? (fun e => e.name == n) = none) :
    addType create (some ⟨.str n, some f⟩) =
      .ok { types := builtinTypes ++ [⟨n, f⟩], ignore := [],
            conversions := none } ∧
    findTest (builtinTypes ++ [⟨n, f⟩]) n = .ok f ∧
    create.types = builtinTypes ∧
    findTest create.types n =
      .error (.typeError (unknownTypeMsg builtinTypes n)) := by
  refine ⟨rfl, ?_, rfl, ?_⟩
  · unfold findTest
    rw [List.find?_append, hfresh, List.find?_cons_of_pos _ (by simp)]
    rfl
  · show findTest builtinTypes n = _
    unfold findTest
    rw [hfresh]

/-- C8 witness: adding `"MyType"` to one fresh instance makes it
resolvable there, while a fresh instance still has exactly the built-in
registry, where `"MyType"` does not resolve. -/
theorem c8_instance_independence_witness :
    (builtinTypes.find? (fun e => e.name == "MyType") = none) ∧
    (addType create (some ⟨.str "MyType", some (fun _ => true)⟩) =
      .ok { types := builtinTypes ++ [⟨"MyType", fun _ => true⟩],
            ignore := [], conversions := none } ∧
    findTest (builtinTypes ++ [⟨"MyType", fun _ => true⟩]) "MyType" =
      .ok (fun _ => true) ∧
    create.types = builtinTypes ∧
    findTest create.types "MyType" =
      .error (.typeError (unknownTypeMsg builtinTypes "MyType"))) :=
  ⟨rfl, c8_instance_independence "MyType" (fun _ => true) rfl⟩

/-- C9: neither mutator affects an already-constructed dispatcher. A
successful `addType` only appends to the registry, and since some
registered type (in every real instance, `any`) accepts every value,
every call to an existing dispatcher — acceptance, selection, and the
no-match diagnostic — returns exactly what it returned before; a
successful `addConversion` does not touch the type registry at all, so
the same holds. -/
theorem c9_mutators_preserve_existing_dispatchers
    (st st₁ st₂ : TypedState) (a : Option AddTypeArg) (c : Option ConvArg)
    (d : Dispatcher) (args : List JSValue)
    (hall : ∃ e ∈ st.types, ∀ v, e.test v = true)
    (h₁ : addType st a = .ok st₁)
    (h₂ : addConversion st c = .ok st₂) :
    callTyped st₁.types d args = callTyped st.types d args ∧
    callTyped st₂.types d args = callTyped st.types d args := by
  constructor
  · obtain ⟨e, he, -, -⟩ := addType_ok_types st st₁ a h₁
    rw [he]
    exact callTyped_types_append st.types [e] d args hall
  · rw [addConversion_ok_types st st₂ c h₂]

set_option maxHeartbeats 1000000 in
/-- C9 witness: on an instance state with the built-in registry (which
contains the all-accepting `any`), adding the type `"Custom"` and a
conversion leaves a previously built `"string"`/`"number"` dispatcher's
call outcome on a boolean argument unchanged. -/
theorem c9_mutators_preserve_existing_dispatchers_witness :
    callTyped (builtinTypes ++ [⟨"Custom", fun _ => true⟩]) strNumDisp
        [JSValue.bool true] =
      callTyped builtinTypes strNumDisp [JSValue.bool true] ∧
    callTyped builtinTypes strNumDisp [JSValue.bool true] =
      callTyped builtinTypes strNumDisp [JSValue.bool true] := by
  have h₁ : addType ⟨builtinTypes, [], some []⟩
      (some ⟨.str "Custom", some (fun _ => true)⟩) =
      .ok ⟨builtinTypes ++ [⟨"Custom", fun _ => true⟩], [], some []⟩ := rfl
  have h₂ : addConversion ⟨builtinTypes, [], some []⟩
      (some ⟨.str "boolean", .str "number", .func 0⟩) =
      .ok ⟨builtinTypes, [], some [⟨.str "boolean", .str "number", .func 0⟩]⟩ :=
    rfl
  exact c9_mutators_preserve_existing_dispatchers
    ⟨builtinTypes, [], some []⟩
    ⟨builtinTypes ++ [⟨"Custom", fun _ => true⟩], [], some []⟩
    ⟨builtinTypes, [], some [⟨.str "boolean", .str "number", .func 0⟩]⟩
    (some ⟨.str "Custom", some (fun _ => true)⟩)
    (some ⟨.str "boolean", .str "number", .func 0⟩)
    strNumDisp [JSValue.bool true]
    ⟨⟨"any", ok⟩, by simp [builtinTypes], fun v => rfl⟩
    h₁ h₂

end TypedFunction
